import Mathlib

/-!
Verification of the TrialEquity ML bias-detection core
(`backend/ml_bias_detection_production.py`, class `MLBiasDetector`).

The Python code is shallowly embedded over exact rational arithmetic (`ℚ`).
Machine floats are modelled as rationals; the transcendental library call
`np.log1p` is abstracted as an explicit function parameter `log1p`, the
`scipy.stats.chisquare` call as an explicit parameter `chisq` returning a
(statistic, p-value) pair, and the hidden global NumPy random-number stream
as an explicit parameter (`rng`, `FallbackDraws`), so that every embedded
function is a total, executable Lean function of all of its actual inputs.
Python dictionaries with `.get(key, default)` access are modelled as
structures with `Option` fields read through `Option.getD`.
-/

/-- Age sub-dictionary of a trial-metadata dictionary. A missing
`age_distribution` key or a missing sub-key is `none`; the code reads every
sub-key with `.get(key, default)` (source lines 501-504). -/
structure AgeDist where
  mean : Option ℚ
  std : Option ℚ
  min : Option ℚ
  max : Option ℚ
deriving DecidableEq

/-- Gender sub-dictionary (`male` / `female` fractions), keys optional. -/
structure GenderDist where
  male : Option ℚ
  female : Option ℚ
deriving DecidableEq

/-- The `trial_metadata` dictionary consumed by `detect_bias`,
`_extract_features`, `_calculate_fairness_metrics` and
`_run_statistical_tests`. The ethnicity distribution is a variable-length
mapping, modelled as an association list. -/
structure TrialMetadata where
  age_distribution : AgeDist
  gender_distribution : GenderDist
  ethnicity_distribution : List (String × ℚ)
  sample_size : Option ℚ
  eligibility_score : Option ℚ
  participant_count : Option ℚ
deriving DecidableEq

/-- Python `min` over a nonempty list; the empty case (never reached by the
source, which guards on list length) returns 0. -/
def listMin : List ℚ → ℚ
  | [] => 0
  | x :: xs => xs.foldl min x

/-- Python `max` over a nonempty list; the empty case returns 0. -/
def listMax : List ℚ → ℚ
  | [] => 0
  | x :: xs => xs.foldl max x

/-- The list comprehension
`[v for v in values if isinstance(v, (int, float)) and v > 0.001]`
(source line 914); the `isinstance` test is always true in this typed model. -/
def nonNegligible (l : List ℚ) : List ℚ :=
  l.filter (fun v => decide ((1/1000 : ℚ) < v))

/-- The disparate-impact computation of `_calculate_fairness_metrics`
(source lines 915-924), as a function of the already-filtered ethnicity
values: `min/max` for two or more groups (`0.0` if the maximum is not
positive), `0.0` for exactly one group, and the `0.7` default otherwise. -/
def dirOf (l : List ℚ) : ℚ :=
  if 2 ≤ l.length then
    (if 0 < listMax l then listMin l / listMax l else 0)
  else if l.length = 1 then 0
  else 7/10

/-- `MLBiasDetector._calculate_fairness_metrics` return value. -/
structure FairnessMetrics where
  demographic_parity : ℚ
  disparate_impact : ℚ
  equality_of_opportunity : ℚ
deriving DecidableEq

/-- `MLBiasDetector._calculate_fairness_metrics` (source lines 901-937).
`disparate_impact` is the dictionary entry the source returns under the key
starting with `disparate_impact`. -/
def calculate_fairness_metrics (md : TrialMetadata) : FairnessMetrics :=
  let gender_male := md.gender_distribution.male.getD (1/2)
  let gender_female := md.gender_distribution.female.getD (1/2)
  let gender_parity := 1 - |gender_male - gender_female|
  let ethnicity_values := nonNegligible (md.ethnicity_distribution.map Prod.snd)
  let disparate_impact := dirOf ethnicity_values
  let age_min := md.age_distribution.min.getD 18
  let age_max := md.age_distribution.max.getD 80
  let age_range := max (age_max - age_min) 0
  let age_coverage := if 0 < age_range then min (age_range / 50) 1 else 0
  ⟨gender_parity, disparate_impact, age_coverage⟩

/-- `MLBiasDetector._run_statistical_tests` return value. -/
structure StatisticalTests where
  chi2_gender : ℚ
  p_value_gender : ℚ
  chi2_ethnicity : ℚ
  p_value_ethnicity : ℚ
deriving DecidableEq

/-- `MLBiasDetector._run_statistical_tests` (source lines 939-960).
`chisq` abstracts `scipy.stats.chisquare`, returning the (statistic,
p-value) pair for given observed and expected lists. When the ethnicity
mapping is empty the source bypasses `chisquare` and returns the literal
pair `(0.0, 1.0)` (source line 953). `sample_size` is never read. -/
def run_statistical_tests (chisq : List ℚ → List ℚ → ℚ × ℚ)
    (md : TrialMetadata) : StatisticalTests :=
  let observed_gender := [md.gender_distribution.male.getD (1/2),
    md.gender_distribution.female.getD (1/2)]
  let gender_result := chisq observed_gender [1/2, 1/2]
  let ethnicity_values := md.ethnicity_distribution.map Prod.snd
  if 0 < ethnicity_values.length then
    let expected := List.replicate ethnicity_values.length
      ((ethnicity_values.length : ℚ)⁻¹)
    let eth_result := chisq ethnicity_values expected
    ⟨gender_result.1, gender_result.2, eth_result.1, eth_result.2⟩
  else
    ⟨gender_result.1, gender_result.2, 0, 1⟩

/-- The statistical-confidence contribution of
`_calculate_overall_fairness_score` per unit weight: the source multiplies
the 0.15 weight by `(1.0 - min(p_value_gender, 0.5))` (source line 986). -/
def stat_confidence_term (p : ℚ) : ℚ := 1 - min p (1/2)

/-- `MLBiasDetector._calculate_overall_fairness_score`
(source lines 962-991). Weights 0.25 / 0.25 / 0.20 / 0.15 / 0.10 / 0.05;
the result is clamped to `[0, 1]`. -/
def calculate_overall_fairness_score (fm : FairnessMetrics)
    (st : StatisticalTests) (outlier_score bias_probability : ℚ) : ℚ :=
  let score :=
    25/100 * fm.demographic_parity +
    25/100 * fm.disparate_impact +
    20/100 * fm.equality_of_opportunity +
    15/100 * stat_confidence_term st.p_value_gender +
    10/100 * (if -(1/10) < outlier_score then (1 : ℚ) else 1/2) +
    5/100 * (1 - bias_probability)
  max 0 (min 1 score)

/-- Verdict decision of `detect_bias`. -/
inductive Decision where
  | ACCEPT
  | REVIEW
  | REJECT
deriving DecidableEq

/-- The decision logic of `detect_bias` (source lines 828-872), as a
function of the computed fairness score, the fairness metrics, the outlier
flag and the bias probability. First match wins, exactly as the Python
`if`/`elif` chain. -/
def decide_verdict (fairness_score : ℚ) (fm : FairnessMetrics)
    (is_outlier : Bool) (bias_probability : ℚ) : Decision :=
  if fm.demographic_parity ≥ 90/100 ∧ fm.equality_of_opportunity ≥ 80/100 ∧
      fm.disparate_impact ≥ 25/100 ∧ is_outlier = false ∧
      bias_probability < 45/100 then
    if fairness_score ≥ 65/100 then Decision.ACCEPT
    else if fairness_score ≥ 60/100 ∧ fm.demographic_parity ≥ 92/100 then
      Decision.ACCEPT
    else if fairness_score ≥ 55/100 then Decision.REVIEW
    else Decision.REVIEW
  else if fairness_score ≥ 85/100 ∧ is_outlier = false ∧
      bias_probability < 25/100 then Decision.ACCEPT
  else if fairness_score ≥ 75/100 ∧ bias_probability < 35/100 then
    Decision.ACCEPT
  else if fairness_score ≥ 70/100 ∧ bias_probability < 40/100 then
    Decision.ACCEPT
  else if fairness_score ≥ 65/100 ∧ is_outlier = false then Decision.ACCEPT
  else if fairness_score ≥ 60/100 then Decision.REVIEW
  else Decision.REJECT

/-- `MLBiasDetector._extract_features` (source lines 495-556). `log1p`
abstracts `np.log1p`; `rng` is the value drawn by
`np.random.uniform(0.01, 0.1)` for `eligibility_variance` (source line 533)
— a fresh draw from the hidden global random stream on every call. The
`float32` cast on the produced array is elided (exact arithmetic). -/
def extract_features (log1p : ℚ → ℚ) (rng : ℚ) (md : TrialMetadata) :
    List ℚ :=
  let age_mean := md.age_distribution.mean.getD 50
  let age_std := md.age_distribution.std.getD 10
  let age_min := md.age_distribution.min.getD 18
  let age_max := md.age_distribution.max.getD 80
  let age_range := age_max - age_min
  let age_skewness :=
    if 0 < age_std then (age_mean - (age_min + age_max) / 2) / age_std else 0
  let gender_male := md.gender_distribution.male.getD (1/2)
  let gender_female := md.gender_distribution.female.getD (1/2)
  let gender_balance := 1 - |gender_male - gender_female|
  let white0 := (md.ethnicity_distribution.lookup "white").getD (25/100)
  let black0 := (md.ethnicity_distribution.lookup "black").getD (25/100)
  let asian0 := (md.ethnicity_distribution.lookup "asian").getD (25/100)
  let hispanic0 := (md.ethnicity_distribution.lookup "hispanic").getD (15/100)
  let other0 := (md.ethnicity_distribution.lookup "other").getD (10/100)
  let total_eth := white0 + black0 + asian0 + hispanic0 + other0
  let white := if 0 < total_eth then white0 / total_eth else white0
  let black := if 0 < total_eth then black0 / total_eth else black0
  let asian := if 0 < total_eth then asian0 / total_eth else asian0
  let hispanic := if 0 < total_eth then hispanic0 / total_eth else hispanic0
  let other := if 0 < total_eth then other0 / total_eth else other0
  let max_eth := max white (max black (max asian (max hispanic other)))
  let ethnicity_diversity := if 0 < max_eth then 1 - max_eth else 0
  let sample_size := md.sample_size.getD 100
  let sample_size_norm := sample_size / 1000
  let sample_size_log := log1p sample_size / 10
  let eligibility_score := md.eligibility_score.getD (80/100)
  let eligibility_variance := rng
  let demographic_parity := gender_balance
  let ethnicity_values :=
    [white, black, asian, hispanic, other].filter (fun v => decide ((0:ℚ) < v))
  let disparate_impact :=
    if 2 ≤ ethnicity_values.length then
      (if 0 < listMax ethnicity_values then
        listMin ethnicity_values / listMax ethnicity_values else 0)
    else 0
  let equality_opportunity := min (age_range / 50) 1
  [age_mean, age_std, age_range, age_skewness,
   gender_male, gender_female, gender_balance,
   white, black, asian, ethnicity_diversity,
   sample_size_norm, sample_size_log,
   eligibility_score, eligibility_variance,
   demographic_parity, disparate_impact, equality_opportunity]

/-- The `feature_names` list set in the `MLBiasDetector` constructor
(source lines 43-50). -/
def feature_names : List String :=
  ["age_mean", "age_std", "age_range", "age_skewness",
   "gender_male", "gender_female", "gender_balance",
   "ethnicity_white", "ethnicity_black", "ethnicity_asian",
   "ethnicity_diversity",
   "sample_size_norm", "sample_size_log",
   "eligibility_score", "eligibility_variance",
   "demographic_parity", "disparate_impact", "equality_opportunity"]

/-- The trained model state held by a running `MLBiasDetector`: the fitted
`RobustScaler` transform, the `IsolationForest` decision function and
predicate, the ensemble probability for the biased class, and the feature
name list loaded or set by the constructor. These are opaque fitted models
in the source, so they are fields of function type here. -/
structure ModelArtifact where
  scaler : List ℚ → List ℚ
  outlier_decision : List ℚ → ℚ
  outlier_predict : List ℚ → Bool
  predict_proba : List ℚ → ℚ
  feature_names : List String

/-- `MLBiasDetector._generate_recommendations` (source lines 993-1021). -/
def generate_recommendations (fm : FairnessMetrics) (st : StatisticalTests)
    (is_outlier : Bool) (bias_probability : ℚ) : List String :=
  let recs :=
    (if fm.demographic_parity < 7/10 then
      ["Improve gender balance in participant recruitment"] else []) ++
    (if fm.disparate_impact < 6/10 then
      ["Ensure better ethnic diversity representation"] else []) ++
    (if fm.equality_of_opportunity < 6/10 then
      ["Expand age range to improve inclusivity"] else []) ++
    (if st.p_value_gender < 5/100 then
      ["Gender distribution shows significant bias - review recruitment strategy"]
     else []) ++
    (if is_outlier = true then
      ["Trial data shows unusual patterns - manual review recommended"]
     else []) ++
    (if 1/2 < bias_probability then
      ["High probability of bias detected - consider redesigning trial"]
     else [])
  if recs = [] then ["Trial meets fairness criteria"] else recs

/-- `MLBiasDetector._generate_rejection_summary` (source lines 1023-1086):
the list of violated-threshold reasons in source order. The source
interpolates the concrete numbers into each sentence; the numeric string
formatting is elided here and each reason is kept as its identifying text. -/
def rejection_reason_tags (fairness_score : ℚ) (fm : FairnessMetrics)
    (st : StatisticalTests) (is_outlier : Bool) (bias_probability : ℚ)
    (md : TrialMetadata) : List String :=
  (if fairness_score < 70/100 then ["Low fairness score"] else []) ++
  (if is_outlier = true then ["Unusual data patterns detected"] else []) ++
  (if 40/100 ≤ bias_probability then ["High bias probability"] else []) ++
  (if fm.demographic_parity < 7/10 then ["Gender imbalance"] else []) ++
  (if fm.disparate_impact < 6/10 then ["Ethnicity imbalance"] else []) ++
  (if fm.equality_of_opportunity < 6/10 then ["Limited age range"] else []) ++
  (if st.p_value_gender < 5/100 then
    ["Gender distribution shows significant statistical bias"] else []) ++
  (if st.p_value_ethnicity < 5/100 then
    ["Ethnicity distribution shows significant statistical bias"] else []) ++
  (if md.participant_count.getD 0 < 30 then
    ["Insufficient sample size"] else [])

/-- The result dictionary of `detect_bias` (source lines 886-899). -/
structure BiasVerdict where
  decision : Decision
  fairness_score : ℚ
  outlier_score : ℚ
  is_outlier : Bool
  bias_probability : ℚ
  fairness_metrics : FairnessMetrics
  statistical_tests : StatisticalTests
  recommendations : List String
  rejection_reasons : Option (List String)
deriving DecidableEq

/-- `MLBiasDetector.detect_bias` on a trained detector (source lines
756-899): feature extraction, the hard feature-count contract check against
the artifact's feature-name list (source lines 772-777), scaling, the two
model signals, fairness metrics, statistical tests, score aggregation, the
decision chain, recommendations and the rejection summary. In this typed
embedding `_calculate_fairness_metrics` and `_run_statistical_tests` are
total, so the defaulting exception handler of source lines 806-821 is dead.
-/
def detect_bias (A : ModelArtifact) (chisq : List ℚ → List ℚ → ℚ × ℚ)
    (log1p : ℚ → ℚ) (rng : ℚ) (md : TrialMetadata) :
    Except String BiasVerdict :=
  let features := extract_features log1p rng md
  if features.length ≠ A.feature_names.length then
    Except.error "Feature mismatch"
  else
    let features_scaled := A.scaler features
    let outlier_score := A.outlier_decision features_scaled
    let is_outlier := A.outlier_predict features_scaled
    let bias_probability := A.predict_proba features_scaled
    let fm := calculate_fairness_metrics md
    let st := run_statistical_tests chisq md
    let fairness_score :=
      calculate_overall_fairness_score fm st outlier_score bias_probability
    let decision := decide_verdict fairness_score fm is_outlier bias_probability
    let recs := generate_recommendations fm st is_outlier bias_probability
    let rej := if decision = Decision.REJECT then
        some (rejection_reason_tags fairness_score fm st is_outlier
          bias_probability md)
      else none
    Except.ok ⟨decision, fairness_score, outlier_score, is_outlier,
      bias_probability, fm, st, recs, rej⟩

/-- The `trial_data` dictionary built by `preprocess_trial_data` (source
lines 651-666 and 686-710), with the nested age / gender / ethnicity
sub-dictionaries flattened into fields. -/
structure TrialData where
  trial_id : String
  filename : String
  participant_count : ℚ
  age_mean : ℚ
  age_std : ℚ
  age_min : ℚ
  age_max : ℚ
  gender_male : ℚ
  gender_female : ℚ
  eth_white : ℚ
  eth_black : ℚ
  eth_asian : ℚ
  eth_hispanic : ℚ
  eth_other : ℚ
  sample_size : ℚ
  eligibility_score : ℚ
  raw_data_hash : String
deriving DecidableEq

/-- Column statistics of a successfully parsed CSV, i.e. the values the
pandas library calls of source lines 566-649 produce: row count, the
(mean, std, min, max) of a present nonempty numeric age column, the
`value_counts` of the title-cased gender and ethnicity columns when those
columns exist, and the mean of a present nonempty eligibility-score column.
-/
structure CsvStats where
  rows : ℕ
  ageStats : Option (ℚ × ℚ × ℚ × ℚ)
  genderCounts : Option (List (String × ℕ))
  ethnicityCounts : Option (List (String × ℕ))
  eligibilityMean : Option ℚ
deriving DecidableEq

/-- Gender-fraction computation of `preprocess_trial_data`
(source lines 583-606): count `Male` falling back to `M`, count `Female`
falling back to `F`, divide by the column total, then renormalize the two
fractions when their sum is positive. -/
def genderFromCounts (gc : Option (List (String × ℕ))) : ℚ × ℚ :=
  match gc with
  | none => (1/2, 1/2)
  | some counts =>
    let total : ℕ := (counts.map Prod.snd).sum
    if 0 < total then
      let mc0 := (counts.lookup "Male").getD 0
      let mc := if mc0 = 0 then (counts.lookup "M").getD 0 else mc0
      let fc0 := (counts.lookup "Female").getD 0
      let fc := if fc0 = 0 then (counts.lookup "F").getD 0 else fc0
      let m : ℚ := (mc : ℚ) / (total : ℚ)
      let f : ℚ := (fc : ℚ) / (total : ℚ)
      let g := m + f
      if 0 < g then (m / g, f / g) else (m, f)
    else (1/2, 1/2)

/-- The `eth_mapping` dictionary lookup with default `"other"`
(source lines 619-631). -/
def ethMap (s : String) : String :=
  if s = "White" then "white"
  else if s = "Black" then "black"
  else if s = "African American" then "black"
  else if s = "Asian" then "asian"
  else if s = "Hispanic" then "hispanic"
  else if s = "Latino" then "hispanic"
  else if s = "Latina" then "hispanic"
  else if s = "Other" then "other"
  else "other"

/-- Canonical five-key ethnicity fractions accumulated by the loop of
source lines 630-637. -/
structure EthAcc where
  white : ℚ
  black : ℚ
  asian : ℚ
  hispanic : ℚ
  other : ℚ
deriving DecidableEq

/-- One iteration of the accumulation loop over `ethnicity_counts.items()`
(source lines 630-632): add `count / total` to the mapped canonical key. -/
def ethFoldStep (total : ℚ) (acc : EthAcc) (entry : String × ℕ) : EthAcc :=
  let key := ethMap entry.1
  let v : ℚ := (entry.2 : ℚ) / total
  if key = "white" then ⟨acc.white + v, acc.black, acc.asian, acc.hispanic, acc.other⟩
  else if key = "black" then ⟨acc.white, acc.black + v, acc.asian, acc.hispanic, acc.other⟩
  else if key = "asian" then ⟨acc.white, acc.black, acc.asian + v, acc.hispanic, acc.other⟩
  else if key = "hispanic" then ⟨acc.white, acc.black, acc.asian, acc.hispanic + v, acc.other⟩
  else ⟨acc.white, acc.black, acc.asian, acc.hispanic, acc.other + v⟩

/-- Ethnicity-fraction computation of `preprocess_trial_data`
(source lines 608-642): defaults, the count-accumulation loop, the
ensure-all-keys step (subsumed by starting from zeros), and the final
normalization to sum 1 when the sum is positive. -/
def ethFromCounts (ec : Option (List (String × ℕ))) : EthAcc :=
  match ec with
  | none => ⟨25/100, 25/100, 25/100, 15/100, 10/100⟩
  | some counts =>
    let total : ℕ := (counts.map Prod.snd).sum
    if 0 < total then
      let acc := counts.foldl (ethFoldStep (total : ℚ)) ⟨0, 0, 0, 0, 0⟩
      let s := acc.white + acc.black + acc.asian + acc.hispanic + acc.other
      if 0 < s then
        ⟨acc.white / s, acc.black / s, acc.asian / s, acc.hispanic / s,
         acc.other / s⟩
      else acc
    else ⟨25/100, 25/100, 25/100, 15/100, 10/100⟩

/-- The CSV-success branch of `preprocess_trial_data`
(source lines 569-672). -/
def trialDataFromCsv (st : CsvStats) (contentHash filename : String) :
    TrialData :=
  let a := st.ageStats.getD (50, 10, 18, 80)
  let g := genderFromCounts st.genderCounts
  let e := ethFromCounts st.ethnicityCounts
  { trial_id := contentHash.take 16
    filename := filename
    participant_count := (st.rows : ℚ)
    age_mean := a.1
    age_std := a.2.1
    age_min := a.2.2.1
    age_max := a.2.2.2
    gender_male := g.1
    gender_female := g.2
    eth_white := e.white
    eth_black := e.black
    eth_asian := e.asian
    eth_hispanic := e.hispanic
    eth_other := e.other
    sample_size := (st.rows : ℚ)
    eligibility_score := st.eligibilityMean.getD (85/100)
    raw_data_hash := contentHash }

/-- The values drawn from the global NumPy random stream by the fallback
branch of `preprocess_trial_data` (source lines 686-710): one draw per
field, in source order. `participant_count` and `sample_size` are two
separate `np.random.randint(100, 500)` calls, and `male` / `female` are two
independent `np.random.uniform(0.48, 0.52)` draws. -/
structure FallbackDraws where
  participant_count : ℚ
  age_mean : ℚ
  age_std : ℚ
  age_min : ℚ
  age_max : ℚ
  gender_male : ℚ
  gender_female : ℚ
  eth_white : ℚ
  eth_black : ℚ
  eth_asian : ℚ
  eth_hispanic : ℚ
  eth_other : ℚ
  sample_size : ℚ
  eligibility_score : ℚ
deriving DecidableEq

/-- The fallback `trial_data` dictionary built from random draws when both
CSV and JSON parsing fail (source lines 686-711). -/
def fallbackTrialData (d : FallbackDraws) (contentHash filename : String) :
    TrialData :=
  { trial_id := contentHash.take 16
    filename := filename
    participant_count := d.participant_count
    age_mean := d.age_mean
    age_std := d.age_std
    age_min := d.age_min
    age_max := d.age_max
    gender_male := d.gender_male
    gender_female := d.gender_female
    eth_white := d.eth_white
    eth_black := d.eth_black
    eth_asian := d.eth_asian
    eth_hispanic := d.eth_hispanic
    eth_other := d.eth_other
    sample_size := d.sample_size
    eligibility_score := d.eligibility_score
    raw_data_hash := contentHash }

/-- `MLBiasDetector.preprocess_trial_data` (source lines 558-717).
`csv = some st` models `pd.read_csv` succeeding with the given column
statistics; `csv = none` models it raising. On CSV failure the source tries
JSON, but that branch unconditionally raises inside its own bare
`try`/`except` (source lines 678-683: even a successful `json.loads` is
followed by `raise ValueError`), so CSV failure always reaches the
random-fallback branch of source lines 684-711, which returns normally.
The outer handler of source lines 713-717 therefore never fires on a parse
failure, and no error is ever raised for unparseable content. -/
def preprocess_trial_data (csv : Option CsvStats) (draws : FallbackDraws)
    (contentHash filename : String) : Except String TrialData :=
  match csv with
  | some st => Except.ok (trialDataFromCsv st contentHash filename)
  | none => Except.ok (fallbackTrialData draws contentHash filename)

/-- Renormalized demographic parity as the spec words it (spec section 4.5:
"1 − |male_fraction − female_fraction| after renormalizing the two
fractions to sum to 1"); stated for comparison against the code's
`_calculate_fairness_metrics`, which does not renormalize. -/
def demographic_parity_spec (m f : ℚ) : ℚ :=
  1 - |m / (m + f) - f / (m + f)|

/-- Ethnicity scaling of a metadata dictionary by a constant factor `c`
(e.g. percentages instead of fractions), leaving all other fields alone. -/
def scaleEthnicity (c : ℚ) (md : TrialMetadata) : TrialMetadata :=
  ⟨md.age_distribution, md.gender_distribution,
   md.ethnicity_distribution.map (fun p => (p.1, c * p.2)),
   md.sample_size, md.eligibility_score, md.participant_count⟩

/-- Replace only the `sample_size` field of a metadata dictionary. -/
def setSampleSize (md : TrialMetadata) (n : Option ℚ) : TrialMetadata :=
  ⟨md.age_distribution, md.gender_distribution, md.ethnicity_distribution,
   n, md.eligibility_score, md.participant_count⟩

/-- The empty metadata dictionary: every key missing. -/
def mdEmpty : TrialMetadata := ⟨⟨none, none, none, none⟩, ⟨none, none⟩, [], none, none, none⟩

/-- Metadata with unnormalized gender fractions 0.6 / 0.2. -/
def mdGender : TrialMetadata :=
  ⟨⟨none, none, none, none⟩, ⟨some (3/5), some (1/5)⟩, [], none, none, none⟩

/-- Metadata whose ethnicity mapping has a single category. -/
def mdSingleEth : TrialMetadata :=
  ⟨⟨none, none, none, none⟩, ⟨none, none⟩, [("white", 1)], none, none, none⟩

/-- Metadata with an empty ethnicity mapping and `sample_size = 0`. -/
def mdDegenerate : TrialMetadata :=
  ⟨⟨none, none, none, none⟩, ⟨none, none⟩, [], some 0, none, none⟩

/-- Metadata with one ethnicity fraction just below the 0.001 epsilon and
one well above it. -/
def mdNearEps : TrialMetadata :=
  ⟨⟨none, none, none, none⟩, ⟨none, none⟩,
   [("a", 1/2000), ("b", 1/2)], none, none, none⟩

/-- Metadata with two ethnicity fractions both above the epsilon. -/
def mdEthTwo : TrialMetadata :=
  ⟨⟨none, none, none, none⟩, ⟨none, none⟩,
   [("a", 1/2), ("b", 1/4)], none, none, none⟩

/-- A concrete trained-model state: identity scaler, an outlier detector
that flags nothing, and an ensemble whose biased-class probability reads
the 15th feature (index 14, `eligibility_variance`) of its input vector,
with the constructor's feature-name list. -/
def idArtifact : ModelArtifact :=
  ⟨fun v => v, fun _ => 0, fun _ => false, fun v => v.getD 14 0,
   feature_names⟩

/-- A concrete stand-in for `scipy.stats.chisquare` returning statistic 0
and p-value 0.5 for every input. -/
def chisqConst : List ℚ → List ℚ → ℚ × ℚ := fun _ _ => (0, 1/2)

/-- Concrete fallback random draws (all inside the ranges the source draws
from). -/
def fallbackDrawsA : FallbackDraws :=
  ⟨250, 55, 10, 30, 80, 1/2, 1/2, 3/10, 2/10, 2/10, 15/100, 1/10, 250, 8/10⟩

/-- A second set of concrete fallback draws, differing in the eligibility
draw. -/
def fallbackDrawsB : FallbackDraws :=
  ⟨250, 55, 10, 30, 80, 1/2, 1/2, 3/10, 2/10, 2/10, 15/100, 1/10, 250, 9/10⟩

/-! ### Helper lemmas -/

lemma foldl_min_mem (x : ℚ) (xs : List ℚ) : xs.foldl min x ∈ x :: xs := by
  induction xs generalizing x with
  | nil => simp
  | cons y ys ih =>
    have h := ih (min x y)
    simp only [List.foldl_cons]
    rcases List.mem_cons.mp h with h1 | h1
    · rw [h1]
      rcases min_choice x y with hm | hm
      · rw [hm]
        exact List.mem_cons_self _ _
      · rw [hm]
        exact List.mem_cons.mpr (Or.inr (List.mem_cons_self _ _))
    · exact List.mem_cons.mpr (Or.inr (List.mem_cons_of_mem _ h1))

lemma foldl_max_mem (x : ℚ) (xs : List ℚ) : xs.foldl max x ∈ x :: xs := by
  induction xs generalizing x with
  | nil => simp
  | cons y ys ih =>
    have h := ih (max x y)
    simp only [List.foldl_cons]
    rcases List.mem_cons.mp h with h1 | h1
    · rw [h1]
      rcases max_choice x y with hm | hm
      · rw [hm]
        exact List.mem_cons_self _ _
      · rw [hm]
        exact List.mem_cons.mpr (Or.inr (List.mem_cons_self _ _))
    · exact List.mem_cons.mpr (Or.inr (List.mem_cons_of_mem _ h1))

lemma listMin_mem (l : List ℚ) (h : l ≠ []) : listMin l ∈ l := by
  match l with
  | [] => exact absurd rfl h
  | x :: xs => exact foldl_min_mem x xs

lemma listMax_mem (l : List ℚ) (h : l ≠ []) : listMax l ∈ l := by
  match l with
  | [] => exact absurd rfl h
  | x :: xs => exact foldl_max_mem x xs

lemma foldl_min_scale (c : ℚ) (hc : 0 ≤ c) (xs : List ℚ) (x : ℚ) :
    (xs.map (fun v => c * v)).foldl min (c * x) = c * xs.foldl min x := by
  induction xs generalizing x with
  | nil => rfl
  | cons y ys ih =>
    simp only [List.map_cons, List.foldl_cons]
    rw [← mul_min_of_nonneg _ _ hc, ih]

lemma foldl_max_scale (c : ℚ) (hc : 0 ≤ c) (xs : List ℚ) (x : ℚ) :
    (xs.map (fun v => c * v)).foldl max (c * x) = c * xs.foldl max x := by
  induction xs generalizing x with
  | nil => rfl
  | cons y ys ih =>
    simp only [List.map_cons, List.foldl_cons]
    rw [← mul_max_of_nonneg _ _ hc, ih]

lemma listMin_map_scale (c : ℚ) (hc : 0 ≤ c) (l : List ℚ) :
    listMin (l.map (fun v => c * v)) = c * listMin l := by
  match l with
  | [] => simp [listMin]
  | x :: xs =>
    simp only [List.map_cons, listMin]
    exact foldl_min_scale c hc xs x

lemma listMax_map_scale (c : ℚ) (hc : 0 ≤ c) (l : List ℚ) :
    listMax (l.map (fun v => c * v)) = c * listMax l := by
  match l with
  | [] => simp [listMax]
  | x :: xs =>
    simp only [List.map_cons, listMax]
    exact foldl_max_scale c hc xs x

lemma dirOf_map_scale (c : ℚ) (hc : 0 < c) (l : List ℚ) :
    dirOf (l.map (fun v => c * v)) = dirOf l := by
  unfold dirOf
  rw [List.length_map, listMin_map_scale c hc.le, listMax_map_scale c hc.le]
  have hiff : 0 < c * listMax l ↔ 0 < listMax l := by
    constructor
    · intro hm
      rcases mul_pos_iff.mp hm with ⟨_, h⟩ | ⟨hc', _⟩
      · exact h
      · exact absurd hc (not_lt.mpr hc'.le)
    · exact fun h => mul_pos hc h
  simp only [hiff]
  by_cases h2 : 2 ≤ l.length
  · rw [if_pos h2, if_pos h2]
    by_cases hm : 0 < listMax l
    · rw [if_pos hm, if_pos hm, mul_div_mul_left _ _ hc.ne']
    · rw [if_neg hm, if_neg hm]
  · rw [if_neg h2, if_neg h2]

lemma nonNegligible_map_scale (c : ℚ) (l : List ℚ)
    (h : ∀ v ∈ l, ((1/1000 : ℚ) < v ↔ (1/1000 : ℚ) < c * v)) :
    nonNegligible (l.map (fun v => c * v)) =
      (nonNegligible l).map (fun v => c * v) := by
  induction l with
  | nil => rfl
  | cons x xs ih =>
    have hx := h x (List.mem_cons_self x xs)
    have hxs : ∀ v ∈ xs, ((1/1000 : ℚ) < v ↔ (1/1000 : ℚ) < c * v) :=
      fun v hv => h v (List.mem_cons_of_mem x hv)
    simp only [nonNegligible, List.map_cons, List.filter_cons,
      decide_eq_true_eq] at *
    by_cases hcx : (1/1000 : ℚ) < x
    · rw [if_pos (hx.mp hcx), if_pos hcx]
      simp only [List.map_cons]
      rw [ih hxs]
    · rw [if_neg (fun hc' => hcx (hx.mpr hc')), if_neg hcx]
      exact ih hxs

lemma mem_nonNegligible_pos {l : List ℚ} {v : ℚ}
    (h : v ∈ nonNegligible l) : 0 < v := by
  have := List.mem_filter.mp h
  have hv := of_decide_eq_true this.2
  linarith

lemma dirOf_zero_iff (l : List ℚ) (hpos : ∀ v ∈ l, (0 : ℚ) < v) :
    dirOf l = 0 ↔ l.length = 1 := by
  unfold dirOf
  by_cases h2 : 2 ≤ l.length
  · rw [if_pos h2]
    have hne : l ≠ [] := by
      intro h
      rw [h] at h2
      simp at h2
    have hmax : 0 < listMax l := hpos _ (listMax_mem l hne)
    have hmin : 0 < listMin l := hpos _ (listMin_mem l hne)
    rw [if_pos hmax]
    constructor
    · intro h
      exact absurd h (ne_of_gt (div_pos hmin hmax))
    · intro h
      omega
  · rw [if_neg h2]
    by_cases h1 : l.length = 1
    · simp [h1]
    · simp [h1]

lemma scaled_values (c : ℚ) (md : TrialMetadata) :
    (scaleEthnicity c md).ethnicity_distribution.map Prod.snd =
      (md.ethnicity_distribution.map Prod.snd).map (fun v => c * v) := by
  simp [scaleEthnicity, List.map_map, Function.comp]

/-! ### Claim theorems -/

/-- C1: claimed behavior — for byte content that cannot be interpreted as
tabular data, `preprocess_trial_data` should fail with a `ParseError` and
never silently substitute random metadata. The code instead returns a
successful result built entirely from fresh random draws: with CSV parsing
failed (`csv = none`), the call returns `Except.ok` of the fallback data,
and two different random streams yield two different metadata values — the
random values flow straight into the output, and no error is raised. -/
theorem preprocess_fallback_substitutes_random_values :
    preprocess_trial_data none fallbackDrawsA "abcdef0123456789ff" "data.bin" =
      Except.ok (fallbackTrialData fallbackDrawsA "abcdef0123456789ff" "data.bin") ∧
    preprocess_trial_data none fallbackDrawsB "abcdef0123456789ff" "data.bin" =
      Except.ok (fallbackTrialData fallbackDrawsB "abcdef0123456789ff" "data.bin") ∧
    fallbackTrialData fallbackDrawsA "abcdef0123456789ff" "data.bin" ≠
      fallbackTrialData fallbackDrawsB "abcdef0123456789ff" "data.bin" := by
  refine ⟨rfl, rfl, ?_⟩
  intro h
  have h2 : (fallbackTrialData fallbackDrawsA "abcdef0123456789ff"
        "data.bin").eligibility_score =
      (fallbackTrialData fallbackDrawsB "abcdef0123456789ff"
        "data.bin").eligibility_score :=
    congrArg TrialData.eligibility_score h
  have e1 : (fallbackTrialData fallbackDrawsA "abcdef0123456789ff"
      "data.bin").eligibility_score = 8/10 := rfl
  have e2 : (fallbackTrialData fallbackDrawsB "abcdef0123456789ff"
      "data.bin").eligibility_score = 9/10 := rfl
  rw [e1, e2] at h2
  norm_num at h2

/-- C2: claimed behavior — `detect_bias` is deterministic for fixed
metadata and a fixed trained model. The code draws `eligibility_variance`
from `np.random.uniform(0.01, 0.1)` inside `_extract_features` on every
call, so two calls with identical metadata and an identical artifact give
different feature vectors and different verdicts: here the two draws 0.01
and 0.1 (both in the uniform support) produce verdicts differing in
`bias_probability` and `fairness_score`. -/
theorem detect_bias_nondeterministic_rng :
    (detect_bias idArtifact chisqConst (fun q => q) (1/100) mdEmpty).toOption ≠
    (detect_bias idArtifact chisqConst (fun q => q) (1/10) mdEmpty).toOption := by
  intro h
  have hbp : ((detect_bias idArtifact chisqConst (fun q => q) (1/100)
        mdEmpty).toOption.map BiasVerdict.bias_probability) =
      ((detect_bias idArtifact chisqConst (fun q => q) (1/10)
        mdEmpty).toOption.map BiasVerdict.bias_probability) := by
    rw [h]
  have e1 : ((detect_bias idArtifact chisqConst (fun q => q) (1/100)
      mdEmpty).toOption.map BiasVerdict.bias_probability) = some (1/100) := rfl
  have e2 : ((detect_bias idArtifact chisqConst (fun q => q) (1/10)
      mdEmpty).toOption.map BiasVerdict.bias_probability) = some (1/10) := rfl
  rw [e1, e2] at hbp
  have := Option.some.inj hbp
  norm_num at this

/-- C3 counterexample: the strong-demographic-balance condition holds
(parity 0.90, age coverage 0.80, disparate impact 0.25, no outlier, bias
probability 0), the fairness score 0.62 is at least 0.60, yet the decision
is REVIEW, not the claimed ACCEPT — the code demands score 0.65, or score
0.60 together with parity at least 0.92, before accepting. -/
theorem strong_balance_score_062_reviewed :
    (9/10 : ℚ) ≥ 90/100 ∧ (4/5 : ℚ) ≥ 80/100 ∧ (1/4 : ℚ) ≥ 25/100 ∧
    (0 : ℚ) < 45/100 ∧ (62/100 : ℚ) ≥ 60/100 ∧
    decide_verdict (62/100) ⟨9/10, 1/4, 4/5⟩ false 0 = Decision.REVIEW ∧
    Decision.REVIEW ≠ Decision.ACCEPT := by
  refine ⟨by norm_num, by norm_num, by norm_num, by norm_num, by norm_num,
    ?_, by simp⟩
  unfold decide_verdict
  rw [if_pos (by norm_num), if_neg (by norm_num), if_neg (by norm_num),
    if_pos (by norm_num)]

/-- C3 amended: when the strong-demographic-balance condition holds, the
decision is ACCEPT exactly when the fairness score is at least 0.65, or at
least 0.60 with demographic parity at least 0.92; otherwise it is REVIEW —
and it is never REJECT. -/
theorem strong_balance_decision_policy (s bp : ℚ) (fm : FairnessMetrics)
    (hdp : fm.demographic_parity ≥ 90/100)
    (heo : fm.equality_of_opportunity ≥ 80/100)
    (hdi : fm.disparate_impact ≥ 25/100)
    (hbp : bp < 45/100) :
    decide_verdict s fm false bp =
      (if s ≥ 65/100 ∨ (s ≥ 60/100 ∧ fm.demographic_parity ≥ 92/100) then
        Decision.ACCEPT else Decision.REVIEW) ∧
    decide_verdict s fm false bp ≠ Decision.REJECT := by
  have hcond : fm.demographic_parity ≥ 90/100 ∧
      fm.equality_of_opportunity ≥ 80/100 ∧ fm.disparate_impact ≥ 25/100 ∧
      (false : Bool) = false ∧ bp < 45/100 := ⟨hdp, heo, hdi, rfl, hbp⟩
  unfold decide_verdict
  rw [if_pos hcond]
  constructor
  · split_ifs with h1 h2 h3 h4 h5 h6 h7 <;> tauto
  · split_ifs <;> simp

/-- C3 witness: a concrete strong-balance call with score 0.70 resolves to
ACCEPT under the amended policy. -/
theorem strong_balance_decision_policy_witness :
    decide_verdict (7/10) ⟨9/10, 1/4, 4/5⟩ false 0 =
      (if (7/10 : ℚ) ≥ 65/100 ∨
          ((7/10 : ℚ) ≥ 60/100 ∧
            (FairnessMetrics.mk (9/10) (1/4) (4/5)).demographic_parity ≥ 92/100) then
        Decision.ACCEPT else Decision.REVIEW) ∧
    decide_verdict (7/10) ⟨9/10, 1/4, 4/5⟩ false 0 ≠ Decision.REJECT :=
  strong_balance_decision_policy (7/10) 0 ⟨9/10, 1/4, 4/5⟩ (by norm_num)
    (by norm_num) (by norm_num) (by norm_num)

/-- C4 counterexample: with `is_outlier` true, fairness score 0.80 and bias
probability 0.10, the decision is ACCEPT — the 0.75 and 0.70 acceptance
tiers of the code do not check the outlier flag, so an outlier can be
accepted, contradicting the claim that an outlier is never accepted. -/
theorem outlier_accepted_at_high_score :
    decide_verdict (8/10) ⟨1/2, 1/2, 1/2⟩ true (1/10) = Decision.ACCEPT := by
  unfold decide_verdict
  rw [if_neg (by norm_num), if_neg (by norm_num), if_pos (by norm_num)]

/-- C4 amended: with `is_outlier` true, the decision is ACCEPT when the
score is at least 0.75 with bias probability below 0.35, or at least 0.70
with bias probability below 0.40; else REVIEW when the score is at least
0.60; else REJECT. -/
theorem outlier_decision_policy (s bp : ℚ) (fm : FairnessMetrics) :
    decide_verdict s fm true bp =
      (if s ≥ 75/100 ∧ bp < 35/100 then Decision.ACCEPT
       else if s ≥ 70/100 ∧ bp < 40/100 then Decision.ACCEPT
       else if s ≥ 60/100 then Decision.REVIEW
       else Decision.REJECT) := by
  unfold decide_verdict
  have h1 : ¬(fm.demographic_parity ≥ 90/100 ∧
      fm.equality_of_opportunity ≥ 80/100 ∧ fm.disparate_impact ≥ 25/100 ∧
      (true : Bool) = false ∧ bp < 45/100) := by
    rintro ⟨-, -, -, h, -⟩
    exact Bool.noConfusion h
  have h2 : ¬(s ≥ 85/100 ∧ (true : Bool) = false ∧ bp < 25/100) := by
    rintro ⟨-, h, -⟩
    exact Bool.noConfusion h
  have h5 : ¬(s ≥ 65/100 ∧ (true : Bool) = false) := by
    rintro ⟨-, h⟩
    exact Bool.noConfusion h
  rw [if_neg h1, if_neg h2]
  by_cases h3 : s ≥ 75/100 ∧ bp < 35/100
  · rw [if_pos h3, if_pos h3]
  · rw [if_neg h3, if_neg h3]
    by_cases h4 : s ≥ 70/100 ∧ bp < 40/100
    · rw [if_pos h4, if_pos h4]
    · rw [if_neg h4, if_neg h4, if_neg h5]

/-- C5 counterexample: on unnormalized gender fractions male 0.6 / female
0.2, the code computes demographic parity 0.6, while the claimed
renormalized formula gives 0.5 — the code never renormalizes. -/
theorem demographic_parity_unnormalized :
    (calculate_fairness_metrics mdGender).demographic_parity = 3/5 ∧
    demographic_parity_spec (3/5) (1/5) = 1/2 ∧ (3/5 : ℚ) ≠ 1/2 := by
  refine ⟨?_, ?_, by norm_num⟩
  · have h : (calculate_fairness_metrics mdGender).demographic_parity =
        1 - |(3/5 : ℚ) - 1/5| := rfl
    rw [h, abs_of_nonneg (by norm_num : (0:ℚ) ≤ 3/5 - 1/5)]
    norm_num
  · unfold demographic_parity_spec
    have h : (3/5 : ℚ) / (3/5 + 1/5) - (1/5 : ℚ) / (3/5 + 1/5) = 1/2 := by
      norm_num
    rw [h, abs_of_nonneg (by norm_num : (0:ℚ) ≤ (1/2 : ℚ))]
    norm_num

/-- C5 amended: the code computes demographic parity as
`1 − |male − female|` on the raw fractions, with no renormalization; this
coincides with the spec's renormalized formula exactly when the two
fractions already sum to 1. -/
theorem demographic_parity_raw_formula (md : TrialMetadata)
    (h : md.gender_distribution.male.getD (1/2) +
      md.gender_distribution.female.getD (1/2) = 1) :
    (calculate_fairness_metrics md).demographic_parity =
      1 - |md.gender_distribution.male.getD (1/2) -
        md.gender_distribution.female.getD (1/2)| ∧
    (calculate_fairness_metrics md).demographic_parity =
      demographic_parity_spec (md.gender_distribution.male.getD (1/2))
        (md.gender_distribution.female.getD (1/2)) := by
  refine ⟨rfl, ?_⟩
  unfold demographic_parity_spec
  rw [h]
  simp only [div_one]
  rfl

/-- C5 witness: on the empty metadata the defaults 0.5 / 0.5 sum to 1 and
both formulas agree. -/
theorem demographic_parity_raw_formula_witness :
    (calculate_fairness_metrics mdEmpty).demographic_parity =
      1 - |mdEmpty.gender_distribution.male.getD (1/2) -
        mdEmpty.gender_distribution.female.getD (1/2)| ∧
    (calculate_fairness_metrics mdEmpty).demographic_parity =
      demographic_parity_spec (mdEmpty.gender_distribution.male.getD (1/2))
        (mdEmpty.gender_distribution.female.getD (1/2)) :=
  demographic_parity_raw_formula mdEmpty (by norm_num [mdEmpty])

/-- C6 counterexample: a metadata dictionary whose ethnicity mapping has a
single category yields disparate impact exactly 0.0 — the claim says this
case gets a strictly positive neutral mid-value and is never 0.0. -/
theorem single_ethnicity_disparate_impact_zero :
    (calculate_fairness_metrics mdSingleEth).disparate_impact = 0 := by
  have h : (calculate_fairness_metrics mdSingleEth).disparate_impact =
      dirOf (nonNegligible [1]) := rfl
  rw [h]
  have h2 : nonNegligible [(1 : ℚ)] = [1] := by
    unfold nonNegligible
    rw [List.filter_cons]
    norm_num
  rw [h2]
  unfold dirOf
  norm_num

/-- C6 amended: over the categories with fraction above the 0.001 epsilon,
the disparate impact is 0 exactly when there is one such category; with two
or more it is `min/max` of those fractions (the positive-maximum guard of
the code is then automatically satisfied, so the value is strictly
positive); and only the zero-category case receives the neutral 0.7. -/
theorem disparate_impact_small_support (md : TrialMetadata) :
    ((calculate_fairness_metrics md).disparate_impact = 0 ↔
      (nonNegligible (md.ethnicity_distribution.map Prod.snd)).length = 1) ∧
    (calculate_fairness_metrics md).disparate_impact =
      (if 2 ≤ (nonNegligible (md.ethnicity_distribution.map Prod.snd)).length
       then listMin (nonNegligible (md.ethnicity_distribution.map Prod.snd)) /
         listMax (nonNegligible (md.ethnicity_distribution.map Prod.snd))
       else if (nonNegligible
          (md.ethnicity_distribution.map Prod.snd)).length = 1
       then 0 else 7/10) := by
  have hdir : (calculate_fairness_metrics md).disparate_impact =
      dirOf (nonNegligible (md.ethnicity_distribution.map Prod.snd)) := rfl
  have hpos : ∀ v ∈ nonNegligible (md.ethnicity_distribution.map Prod.snd),
      (0:ℚ) < v := fun v hv => mem_nonNegligible_pos hv
  constructor
  · rw [hdir]
    exact dirOf_zero_iff _ hpos
  · rw [hdir]
    unfold dirOf
    by_cases h2 : 2 ≤ (nonNegligible (md.ethnicity_distribution.map Prod.snd)).length
    · rw [if_pos h2, if_pos h2]
      have hne : nonNegligible (md.ethnicity_distribution.map Prod.snd) ≠ [] := by
        intro h
        rw [h] at h2
        simp at h2
      rw [if_pos (hpos _ (listMax_mem _ hne))]
    · rw [if_neg h2, if_neg h2]

/-- C7 counterexample: the statistical-confidence term is
`1 − min(p, 0.5)`. Two p-values above 0.05 (0.1 and 0.2) receive different
credit (0.9 versus 0.8), contradicting a constant "full credit" tier; and
the term at p = 0.5 is strictly below the term at p = 0.06, contradicting
monotone non-decrease in p. -/
theorem stat_confidence_not_tiered :
    stat_confidence_term (1/10) ≠ stat_confidence_term (2/10) ∧
    stat_confidence_term (1/2) < stat_confidence_term (6/100) := by
  unfold stat_confidence_term
  constructor
  · rw [min_eq_left (by norm_num : (1/10 : ℚ) ≤ 1/2),
      min_eq_left (by norm_num : (2/10 : ℚ) ≤ 1/2)]
    norm_num
  · rw [min_eq_left (le_refl (1/2 : ℚ)),
      min_eq_left (by norm_num : (6/100 : ℚ) ≤ 1/2)]
    norm_num

/-- C7 amended: the statistical-confidence term `1 − min(p, 0.5)` is
monotonically non-increasing in the p-value and always at least 0.5 — so a
single test can never zero out the score, but the tier structure claimed by
the spec (full credit above 0.05, reduced credit below) is not present, and
larger p-values receive less credit, not more. -/
theorem stat_confidence_monotone (p q : ℚ) (hpq : p ≤ q) :
    stat_confidence_term q ≤ stat_confidence_term p ∧
    1/2 ≤ stat_confidence_term q := by
  unfold stat_confidence_term
  constructor
  · have h := min_le_min hpq (le_refl (1/2 : ℚ))
    linarith
  · have h := min_le_right q (1/2 : ℚ)
    linarith

/-- C7 witness: the amended monotonicity at p = 0.1 and q = 0.5. -/
theorem stat_confidence_monotone_witness :
    stat_confidence_term (1/2) ≤ stat_confidence_term (1/10) ∧
    1/2 ≤ stat_confidence_term (1/2) :=
  stat_confidence_monotone (1/10) (1/2) (by norm_num)

/-- C8 counterexample: on metadata with an empty ethnicity mapping and
`sample_size = 0`, the Statistical Test Runner returns p-value 1.0 for the
ethnicity test (source line 953), not the claimed default of exactly 0.5.
-/
theorem empty_ethnicity_default_pvalue_one :
    (run_statistical_tests chisqConst mdDegenerate).p_value_ethnicity = 1 ∧
    (run_statistical_tests chisqConst mdDegenerate).chi2_ethnicity = 0 ∧
    (1 : ℚ) ≠ 1/2 := by
  refine ⟨rfl, rfl, by norm_num⟩

/-- C8 amended: `_run_statistical_tests` never reads `sample_size` (so
`sample_size = 0` trivially cannot cause a division error there), and on an
empty ethnicity distribution it returns chi-square 0.0 with p-value 1.0 —
not 0.5; the 0.5 defaults appear only in the exception handler of
`detect_bias`, and a single-category distribution is passed to `chisquare`
directly with no 0.5 fallback. -/
theorem statistical_tests_ignore_sample_size
    (chisq : List ℚ → List ℚ → ℚ × ℚ) (md : TrialMetadata) (n : Option ℚ)
    (h : md.ethnicity_distribution = []) :
    run_statistical_tests chisq (setSampleSize md n) =
      run_statistical_tests chisq md ∧
    (run_statistical_tests chisq md).chi2_ethnicity = 0 ∧
    (run_statistical_tests chisq md).p_value_ethnicity = 1 := by
  refine ⟨rfl, ?_, ?_⟩ <;> simp [run_statistical_tests, h]

/-- C8 witness: the amended statement at the degenerate concrete metadata.
-/
theorem statistical_tests_ignore_sample_size_witness :
    run_statistical_tests chisqConst (setSampleSize mdDegenerate none) =
      run_statistical_tests chisqConst mdDegenerate ∧
    (run_statistical_tests chisqConst mdDegenerate).chi2_ethnicity = 0 ∧
    (run_statistical_tests chisqConst mdDegenerate).p_value_ethnicity = 1 :=
  statistical_tests_ignore_sample_size chisqConst mdDegenerate none rfl

/-- C9 counterexample: scaling the ethnicity fractions by 10 changes the
disparate impact. With fractions 0.0005 and 0.5 only the second survives
the 0.001 epsilon filter, so the code returns 0.0; after scaling by 10 both
survive and the ratio is 0.001 — scale invariance fails at the epsilon
boundary. -/
theorem disparate_impact_scaling_counterexample :
    (calculate_fairness_metrics mdNearEps).disparate_impact = 0 ∧
    (calculate_fairness_metrics
      (scaleEthnicity 10 mdNearEps)).disparate_impact = 1/1000 ∧
    (0 : ℚ) ≠ 1/1000 := by
  refine ⟨?_, ?_, by norm_num⟩
  · have h : (calculate_fairness_metrics mdNearEps).disparate_impact =
        dirOf (nonNegligible [1/2000, 1/2]) := rfl
    rw [h]
    have h2 : nonNegligible [(1/2000 : ℚ), 1/2] = [1/2] := by
      unfold nonNegligible
      rw [List.filter_cons, List.filter_cons]
      norm_num
    rw [h2]
    unfold dirOf
    norm_num
  · have h : (calculate_fairness_metrics
        (scaleEthnicity 10 mdNearEps)).disparate_impact =
        dirOf (nonNegligible [10 * (1/2000 : ℚ), 10 * (1/2 : ℚ)]) := rfl
    rw [h]
    have h2 : nonNegligible [10 * (1/2000 : ℚ), 10 * (1/2 : ℚ)] =
        [10 * (1/2000 : ℚ), 10 * (1/2 : ℚ)] := by
      unfold nonNegligible
      rw [List.filter_cons, List.filter_cons]
      norm_num
    rw [h2]
    have hmax : listMax [10 * (1/2000 : ℚ), 10 * (1/2 : ℚ)] = 10 * (1/2) := by
      unfold listMax
      simp only [List.foldl]
      exact max_eq_right (by norm_num)
    have hmin : listMin [10 * (1/2000 : ℚ), 10 * (1/2 : ℚ)] =
        10 * (1/2000) := by
      unfold listMin
      simp only [List.foldl]
      exact min_eq_left (by norm_num)
    unfold dirOf
    rw [hmax, hmin, if_pos (by norm_num), if_pos (by norm_num)]
    norm_num

/-- C9 amended: disparate impact is invariant under scaling the ethnicity
fractions by a positive constant whenever the scaling does not move any
fraction across the 0.001 epsilon threshold (in particular for any scaling
of genuine fractions by a factor keeping both sides of the filter
unchanged); the counterexample shows the epsilon boundary is the only
obstruction. -/
theorem disparate_impact_scale_invariant (c : ℚ) (md : TrialMetadata)
    (hc : 0 < c)
    (h : ∀ v ∈ md.ethnicity_distribution.map Prod.snd,
      ((1/1000 : ℚ) < v ↔ (1/1000 : ℚ) < c * v)) :
    (calculate_fairness_metrics (scaleEthnicity c md)).disparate_impact =
      (calculate_fairness_metrics md).disparate_impact := by
  have h1 : (calculate_fairness_metrics (scaleEthnicity c md)).disparate_impact
      = dirOf (nonNegligible
        ((scaleEthnicity c md).ethnicity_distribution.map Prod.snd)) := rfl
  have h2 : (calculate_fairness_metrics md).disparate_impact =
      dirOf (nonNegligible (md.ethnicity_distribution.map Prod.snd)) := rfl
  rw [h1, h2, scaled_values, nonNegligible_map_scale c _ h,
    dirOf_map_scale c hc]

/-- C9 witness: doubling the fractions 0.5 and 0.25 (both far above the
epsilon) leaves the disparate impact unchanged. -/
theorem disparate_impact_scale_invariant_witness :
    (calculate_fairness_metrics (scaleEthnicity 2 mdEthTwo)).disparate_impact
      = (calculate_fairness_metrics mdEthTwo).disparate_impact :=
  disparate_impact_scale_invariant 2 mdEthTwo (by norm_num)
    (by
      intro v hv
      have hv2 : v = 1/2 ∨ v = 1/4 := by
        simpa [mdEthTwo] using hv
      rcases hv2 with h | h <;> subst h <;> constructor <;> intro _ <;>
        norm_num)

/-- C10: `_extract_features` totalizes every missing metadata field with a
fixed default and always produces exactly 18 features, which matches the
constructor's 18-entry feature-name list, so the feature-mismatch error
branch of `detect_bias` is unreachable: a detector whose artifact carries
the constructor's feature-name list always returns a verdict, never the
feature-mismatch error. -/
theorem extract_features_no_feature_mismatch
    (log1p : ℚ → ℚ) (rng : ℚ) (md : TrialMetadata) (A : ModelArtifact)
    (chisq : List ℚ → List ℚ → ℚ × ℚ)
    (hA : A.feature_names = feature_names) :
    (extract_features log1p rng md).length = 18 ∧
    (detect_bias A chisq log1p rng md).isOk = true := by
  have hlen : (extract_features log1p rng md).length = 18 := rfl
  refine ⟨hlen, ?_⟩
  simp [detect_bias, hA, hlen, feature_names, Except.isOk, Except.toBool]

/-- C10 witness: a concrete call on the empty metadata with the identity
artifact returns a verdict. -/
theorem extract_features_no_feature_mismatch_witness :
    (extract_features (fun q => q) 0 mdEmpty).length = 18 ∧
    (detect_bias idArtifact chisqConst (fun q => q) 0 mdEmpty).isOk = true :=
  extract_features_no_feature_mismatch (fun q => q) 0 mdEmpty idArtifact
    chisqConst rfl
